import Mathlib

/-!
Verification of the Docmost OIDC authentication subsystem.

Shallow embedding of:
- `apps/server/src/core/auth/strategies/oidc.strategy.ts` (`getClient`, the
  monkey-patched `client.callback` retry, `validate`);
- the controller/service code quoted in `OIDC_FIX_SUMMARY.md` (`login`,
  `getAuthorizationUrl`, `callback`);
- the client hook `useOidcAutoRedirect`.

Network interactions (issuer discovery, the token endpoint, userinfo) are
modelled as explicit oracle inputs; stateful code is explicit state passing;
HTTP-response side effects (cookies, redirects) and browser side effects
(storage, navigation) are modelled as effect traces so that ordering is
provable.
-/

namespace Docmost

/-- JavaScript truthiness of an optional string: `undefined`/`null` and the
empty string are falsy (`!x` in the source). -/
def optTruthy : Option String → Bool
  | none => false
  | some s => s != ""

/-- Whether `sub` begins the character list. -/
def charsBeginWith : List Char → List Char → Bool
  | _, [] => true
  | [], _ :: _ => false
  | a :: as, b :: bs => (a == b) && charsBeginWith as bs

/-- Whether `sub` occurs somewhere in the character list. -/
def hasSubList : List Char → List Char → Bool
  | [], sub => charsBeginWith [] sub
  | a :: tl, sub => charsBeginWith (a :: tl) sub || hasSubList tl sub

/-- JavaScript `String.prototype.includes`: `sub` occurs in `msg`. -/
def includesStr (msg sub : String) : Bool :=
  hasSubList msg.data sub.data

/-! ## Error taxonomy

In the source every failure is an `UnauthorizedException` carrying a message;
the spec names the kinds. Each constructor stands for one `throw` site (or one
library-raised validation failure), and `errMessage` is the carried message. -/

inductive OidcError where
  | notConfigured
  | discoveryFailed (msg : String)
  | stateMismatch
  | exchangeFailed (msg : String)
  | missingClaim
deriving DecidableEq, Repr

def errMessage : OidcError → String
  | .notConfigured => "OIDC is not properly configured"
  | .discoveryFailed m => "Failed to discover OIDC issuer: " ++ m
  | .stateMismatch => "state mismatch"
  | .exchangeFailed m => m
  | .missingClaim => "Email not provided by OIDC provider"

/-! ## Data model -/

/-- The four environment values read by `getClient`; each getter may return
`undefined` (`none`) or a string. -/
structure OidcEnv where
  issuer : Option String
  clientId : Option String
  clientSecret : Option String
  redirectUri : Option String
deriving DecidableEq, Repr

/-- The client object built from discovered metadata in `getClient`. -/
structure DiscoveredClient where
  issuerMetadata : String
  client_id : String
  client_secret : String
  redirect_uris : List String
  response_types : List String
deriving DecidableEq, Repr

/-- Outcome of the network discovery `Issuer.discover(issuer)`, supplied as an
oracle: either the metadata document or a thrown error message. -/
inductive DiscoveryResult where
  | ok (metadata : String)
  | failure (msg : String)
deriving DecidableEq, Repr

/-- The strategy instance state: the lazily initialised `this.client` field. -/
structure StrategyState where
  client : Option DiscoveredClient
deriving DecidableEq, Repr

/-- The userinfo response: the profile claims named in `OidcProfile` plus any
number of other claims. -/
structure Userinfo where
  email : Option String
  name : Option String
  given_name : Option String
  family_name : Option String
  preferred_username : Option String
  otherClaims : List (String × String)
deriving DecidableEq, Repr

/-! ## Discovery Cache: `OidcStrategy.getClient`

Translation of `oidc.strategy.ts` lines 22-65. The returned `Nat` counts the
`Issuer.discover` network calls performed by this invocation. -/

def getClient (env : OidcEnv) (net : DiscoveryResult) (s : StrategyState) :
    Except OidcError DiscoveredClient × StrategyState × Nat :=
  match s.client with
  | some c => (.ok c, s, 0)
  | none =>
    if !(optTruthy env.issuer) || !(optTruthy env.clientId)
        || !(optTruthy env.clientSecret) || !(optTruthy env.redirectUri) then
      (.error .notConfigured, s, 0)
    else
      match net with
      | .failure msg => (.error (.discoveryFailed msg), s, 1)
      | .ok metadata =>
        let c : DiscoveredClient :=
          { issuerMetadata := metadata
            client_id := env.clientId.getD ""
            client_secret := env.clientSecret.getD ""
            redirect_uris := [env.redirectUri.getD ""]
            response_types := ["code"] }
        (.ok c, ⟨some c⟩, 1)

/-! ## Callback Validator: the token exchange and its retry -/

/-- The callback query parameters (`rawCallbackParams`). -/
structure CallbackParams where
  state : Option String
  code : Option String
deriving DecidableEq, Repr

/-- The checks object handed to `client.callback`; `skipIssuerValidation`
models the effect of the source's `response_type: 'code'` override, which the
source comments describe as skipping issuer validation. -/
structure CallbackChecks where
  state : Option String
  skipIssuerValidation : Bool
deriving DecidableEq, Repr

/-- What the token endpoint returns for a successful exchange. -/
structure TokenEndpointResponse where
  issPresent : Bool
  accessToken : String
deriving DecidableEq, Repr

/-- The identity provider, supplied as an oracle: which `(code, redirect_uri)`
pairs the token endpoint accepts, the token response it then returns, and the
userinfo claims for an access token. -/
structure IdpBehavior where
  acceptsCode : String → String → Bool
  response : TokenEndpointResponse
  userinfoFor : String → Userinfo

/-- Modelled from the spec: the library function `openid-client`
`Client.callback` (`originalCallback` in `oidc.strategy.ts`), which is not
part of the provided sources. Per spec section 4.3 it performs strict OIDC
validation: the `state` parameter against the expected state, the
authorization `code` and `redirect_uri` at the token endpoint, and presence of
the issuer (`iss`) claim in the response unless that single check is relaxed
via the checks object. -/
def originalCallback (idp : IdpBehavior) (redirectUri : String)
    (params : CallbackParams) (checks : CallbackChecks) :
    Except OidcError TokenEndpointResponse :=
  if params.state != checks.state then
    .error (.exchangeFailed "state mismatch, expected another state")
  else
    match params.code with
    | none => .error (.exchangeFailed "code missing from response")
    | some c =>
      if !(idp.acceptsCode c redirectUri) then
        .error (.exchangeFailed "invalid_grant")
      else if !idp.response.issPresent && !checks.skipIssuerValidation then
        .error (.exchangeFailed "iss missing from the response")
      else
        .ok idp.response

/-- The retry checks built by the source: `{ ...checks, response_type: 'code' }`,
whose effect is relaxing issuer-claim validation. -/
def relaxChecks (checks : CallbackChecks) : CallbackChecks :=
  { checks with skipIssuerValidation := true }

/-- Translation of the overridden `this.client.callback` in
`oidc.strategy.ts` lines 48-59: try the strict call; if it throws an error
whose message includes `iss missing`, retry once with the relaxed checks; any
other error propagates. The `Nat` counts the exchange attempts. -/
def patchedCallback (idp : IdpBehavior) (redirectUri : String)
    (params : CallbackParams) (checks : CallbackChecks) :
    Except OidcError TokenEndpointResponse × Nat :=
  match originalCallback idp redirectUri params checks with
  | .ok t => (.ok t, 1)
  | .error e =>
    if includesStr (errMessage e) "iss missing" then
      (originalCallback idp redirectUri params (relaxChecks checks), 2)
    else
      (.error e, 1)

/-- Translation of `OidcStrategy.validate` (`oidc.strategy.ts` lines 68-77):
fetch userinfo with the access token, reject when the `email` claim is falsy
(absent or empty), otherwise return the profile unchanged. The userinfo
network call is the `userinfo` argument. -/
def validate (userinfo : Userinfo) : Except OidcError Userinfo :=
  if !(optTruthy userinfo.email) then
    .error .missingClaim
  else
    .ok userinfo

/-- Modelled from the spec: `exchangeAndValidate` in section 4.3 (the service
`oidc.service.ts` is not among the provided sources; only its authorization-URL
method is quoted in `OIDC_FIX_SUMMARY.md`). Step 1 compares the callback
`state` with the expected state and rejects with `StateMismatchError` before
any exchange; then the exchange runs through the patched client callback; then
userinfo claims are checked by `validate`. The `Nat` counts token-exchange
attempts. -/
def exchangeAndValidate (idp : IdpBehavior) (redirectUri : String)
    (params : CallbackParams) (expectedState : Option String) :
    Except OidcError Userinfo × Nat :=
  match expectedState, params.state with
  | some e, some s =>
    if s = e then
      match patchedCallback idp redirectUri params ⟨some e, false⟩ with
      | (.error err, n) => (.error err, n)
      | (.ok resp, n) =>
        match validate (idp.userinfoFor resp.accessToken) with
        | .error err => (.error err, n)
        | .ok u => (.ok u, n)
    else (.error .stateMismatch, 0)
  | _, _ => (.error .stateMismatch, 0)

/-! ## Session Transition Manager: controller handlers as cookie-op traces

Translation of the `login` and `callback` handlers quoted in
`OIDC_FIX_SUMMARY.md`. Each handler emits a sequence of operations on the
HTTP response, in source order. -/

def authCookieName : String := "authToken"

inductive ResponseOp where
  | clearCookie (name : String)
  | setCookie (name : String) (value : String)
  | redirect (url : String)
deriving DecidableEq, Repr

def homeUrl : String := "/home"

def errorRedirectUrl : String := "/login?error=oidc"

/-- The `login` handler (`oidc.controller.ts` as quoted in
`OIDC_FIX_SUMMARY.md` lines 29-45): clear the auth cookie, then redirect to
the authorization URL. -/
def loginTrace (authUrl : String) : List ResponseOp :=
  [.clearCookie authCookieName, .redirect authUrl]

/-- The `callback` handler (`oidc.controller.ts` as quoted in
`OIDC_FIX_SUMMARY.md` lines 67-85): on success, clear the auth cookie, set the
new one, redirect home. The failure branch is modelled from the spec
(section 6): redirect to an error location without touching cookies. -/
def callbackTrace (result : Except OidcError String) : List ResponseOp :=
  match result with
  | .ok tok =>
    [.clearCookie authCookieName, .setCookie authCookieName tok,
     .redirect homeUrl]
  | .error _ => [.redirect errorRedirectUrl]

/-- Modelled from the spec: `completeCallback` in section 4.4. Delegates to
`exchangeAndValidate`; on success the session token bound to the resolved user
is derived from the profile email (user resolution is an external
collaborator). The pending `AuthorizationState` is consumed exactly once:
after any callback attempt it is discarded (`REJECTED` and `SESSION_ISSUED`
have no path back to `AWAITING_CALLBACK`). -/
def completeCallback (pending : Option String) (idp : IdpBehavior)
    (redirectUri : String) (params : CallbackParams) :
    (Except OidcError String × Nat) × Option String :=
  match exchangeAndValidate idp redirectUri params pending with
  | (.ok u, n) => ((.ok ("session:" ++ u.email.getD ""), n), none)
  | (.error e, n) => ((.error e, n), none)

/-- The browser cookie jar: name-value pairs. -/
def CookieJar : Type := List (String × String)

def applyOp (jar : CookieJar) : ResponseOp → CookieJar
  | .clearCookie n => jar.filter (fun kv => kv.1 != n)
  | .setCookie n v => jar.filter (fun kv => kv.1 != n) ++ [(n, v)]
  | .redirect _ => jar

def applyOps (jar : CookieJar) (ops : List ResponseOp) : CookieJar :=
  ops.foldl applyOp jar

/-- How many cookies named `n` the jar holds. -/
def countCookie (jar : CookieJar) (n : String) : Nat :=
  (jar.filter (fun kv => kv.1 == n)).length

/-! ## Status/Redirect Gate: `useOidcAutoRedirect`

Translation of the client hook (source file `useOidcAutoRedirect`). The
effect of one run of `checkOidcAndRedirect` is a trace of browser-side
operations in source order; the status fetch is an oracle (`Except Unit Bool`,
`.error` modelling a thrown fetch). -/

inductive HookEffect where
  | clearLocalStorage
  | clearSessionStorage
  | navigate (url : String)
  | setIsChecking (b : Bool)
deriving DecidableEq, Repr

def checkOidcAndRedirect (errorParam : Option String)
    (status : Except Unit Bool) (loginUrl : String) : List HookEffect :=
  if optTruthy errorParam then
    [.setIsChecking false]
  else
    match status with
    | .error _ => [.setIsChecking false]
    | .ok true =>
      [.clearLocalStorage, .clearSessionStorage, .navigate loginUrl]
    | .ok false => [.setIsChecking false]

/-- Browser-side state the hook can affect. `isChecking` starts `true`
(`useState(true)` in the source). -/
structure ClientState where
  localStore : List (String × String)
  sessionStore : List (String × String)
  navigation : Option String
  isChecking : Bool
deriving DecidableEq, Repr

def applyHookEffect (st : ClientState) : HookEffect → ClientState
  | .clearLocalStorage => { st with localStore := [] }
  | .clearSessionStorage => { st with sessionStore := [] }
  | .navigate u => { st with navigation := some u }
  | .setIsChecking b => { st with isChecking := b }

def runHook (st : ClientState) (effs : List HookEffect) : ClientState :=
  effs.foldl applyHookEffect st

/-! ## Authorization Request Builder: `getAuthorizationUrl`

Translation of the `client.authorizationUrl` call quoted in
`OIDC_FIX_SUMMARY.md` lines 47-60, as the query-parameter list of the built
URL. -/

def getAuthorizationUrl (redirectUri state : String) : List (String × String) :=
  [("scope", "openid email profile"),
   ("redirect_uri", redirectUri),
   ("state", state),
   ("prompt", "login")]

/-- Whether a callback state fails the expected-state comparison: the state is
absent, no state is pending (never issued for this attempt, or already
consumed), or the values differ. -/
def stateBad : Option String → Option String → Bool
  | some e, some s => s != e
  | some _, none => true
  | none, _ => true

/-! ## Concrete fixtures (used by witnesses) -/

def emptyProfile : Userinfo := ⟨none, none, none, none, none, []⟩

def profileWithEmail : Userinfo :=
  ⟨some "b@example.com", some "B", none, none, none, [("sub", "b")]⟩

/-- An Authelia-like IdP: omits the `iss` claim, accepts one code bound to one
redirect URI. -/
def authelia : IdpBehavior :=
  ⟨fun c r => c == "goodcode" && r == "https://app.example/callback",
   ⟨false, "tok"⟩, fun _ => profileWithEmail⟩

/-- A strictly conforming IdP that accepts every code. -/
def acceptAllIdp : IdpBehavior :=
  ⟨fun _ _ => true, ⟨true, "tok"⟩, fun _ => profileWithEmail⟩

/-- An IdP whose userinfo endpoint returns no email claim. -/
def noEmailIdp : IdpBehavior :=
  ⟨fun _ _ => true, ⟨true, "tok"⟩, fun _ => emptyProfile⟩

def sampleEnv : OidcEnv :=
  ⟨some "https://idp.example", some "abc", some "s3cr3t",
   some "https://app.example/callback"⟩

def sampleClient : DiscoveredClient :=
  { issuerMetadata := "meta"
    client_id := "abc"
    client_secret := "s3cr3t"
    redirect_uris := ["https://app.example/callback"]
    response_types := ["code"] }

/-! ## Helper lemmas on the cookie jar -/

theorem countCookie_clear_eq_zero (jar : CookieJar) (n : String) :
    countCookie (applyOp jar (.clearCookie n)) n = 0 := by
  show ((jar.filter fun kv => kv.1 != n).filter fun kv => kv.1 == n).length = 0
  rw [List.filter_filter]
  simp

theorem countCookie_set_eq_one (jar : CookieJar) (n v : String) :
    countCookie (applyOp jar (.setCookie n v)) n = 1 := by
  show countCookie ((jar.filter fun kv => kv.1 != n) ++ [(n, v)]) n = 1
  have h0 : countCookie (applyOp jar (.clearCookie n)) n = 0 :=
    countCookie_clear_eq_zero jar n
  unfold countCookie at h0 ⊢
  rw [List.filter_append, List.length_append]
  simp only [applyOp] at h0
  simp [h0]

theorem countCookie_redirect (jar : CookieJar) (n u : String) :
    countCookie (applyOp jar (.redirect u)) n = countCookie jar n := rfl

theorem applyOps_append (jar : CookieJar) (t1 t2 : List ResponseOp) :
    applyOps jar (t1 ++ t2) = applyOps (applyOps jar t1) t2 :=
  List.foldl_append ..

theorem countCookie_after_callback_ok (jar : CookieJar) (tok : String) :
    countCookie (applyOps jar (callbackTrace (.ok tok))) authCookieName = 1 := by
  show countCookie
    (applyOp (applyOp (applyOp jar (.clearCookie authCookieName))
      (.setCookie authCookieName tok)) (.redirect homeUrl)) authCookieName = 1
  rw [countCookie_redirect, countCookie_set_eq_one]

theorem countCookie_after_login (jar : CookieJar) (u : String) :
    countCookie (applyOps jar (loginTrace u)) authCookieName = 0 := by
  show countCookie
    (applyOp (applyOp jar (.clearCookie authCookieName)) (.redirect u))
      authCookieName = 0
  rw [countCookie_redirect, countCookie_clear_eq_zero]

end Docmost

namespace Docmost

/-! ## Claim theorems -/

/-- C2: for every valid configuration, the authorization URL requests exactly
the scope `openid email profile`, always carries `prompt=login`, and embeds
the caller-supplied state verbatim. -/
theorem authorization_url_forced_reauth (redirectUri state : String) :
    ("scope", "openid email profile") ∈ getAuthorizationUrl redirectUri state ∧
    ("prompt", "login") ∈ getAuthorizationUrl redirectUri state ∧
    ("state", state) ∈ getAuthorizationUrl redirectUri state ∧
    (getAuthorizationUrl redirectUri state).lookup "state" = some state ∧
    (getAuthorizationUrl redirectUri state).lookup "scope" =
      some "openid email profile" ∧
    (getAuthorizationUrl redirectUri state).lookup "prompt" = some "login" := by
  refine ⟨?_, ?_, ?_, ?_, ?_, ?_⟩ <;> simp [getAuthorizationUrl, List.lookup]

/-- C1: on every successful callback completion the handler first clears the
existing session cookie and only then sets the fresh one (the clear operation
is present and strictly precedes the set in the response trace); and running
login-initiation twice in a row, or a successful callback followed by any
second callback (a replayed state fails), leaves at most one valid session
cookie in the browser jar. -/
theorem callback_clear_before_issue (tok : String)
    (r2 : Except OidcError String) (jar : CookieJar) (u1 u2 : String) :
    callbackTrace (.ok tok) =
      [.clearCookie authCookieName, .setCookie authCookieName tok,
       .redirect homeUrl] ∧
    (∃ i j, i < j ∧
      (callbackTrace (.ok tok)).get? i = some (.clearCookie authCookieName) ∧
      (callbackTrace (.ok tok)).get? j =
        some (.setCookie authCookieName tok)) ∧
    countCookie (applyOps jar (callbackTrace (.ok tok) ++ callbackTrace r2))
      authCookieName ≤ 1 ∧
    countCookie (applyOps jar (loginTrace u1 ++ loginTrace u2))
      authCookieName = 0 := by
  refine ⟨rfl, ⟨0, 1, by omega, rfl, rfl⟩, ?_, ?_⟩
  · rw [applyOps_append]
    rcases r2 with e | tok2
    · have h1 := countCookie_after_callback_ok jar tok
      have h2 : countCookie (applyOps (applyOps jar (callbackTrace (.ok tok)))
          (callbackTrace (.error e))) authCookieName
          = countCookie (applyOps jar (callbackTrace (.ok tok)))
            authCookieName := rfl
      omega
    · have h1 := countCookie_after_callback_ok
        (applyOps jar (callbackTrace (.ok tok))) tok2
      omega
  · rw [applyOps_append, countCookie_after_login]

/-- C5: `validate` fails with the missing-claim error exactly when the `email`
claim is absent or empty, regardless of the other claims, and otherwise
returns the profile with the returned claims unchanged; on the missing-email
path the whole callback completion rejects and its response trace sets no
cookie. -/
theorem validate_requires_email (u : Userinfo) (idp : IdpBehavior)
    (ru e c : String)
    (hcode : idp.acceptsCode c ru = true)
    (hiss : idp.response.issPresent = true)
    (hui : idp.userinfoFor idp.response.accessToken = u) :
    (optTruthy u.email = false →
      validate u = .error .missingClaim ∧
      (completeCallback (some e) idp ru ⟨some e, some c⟩).1.1 =
        .error .missingClaim ∧
      callbackTrace (completeCallback (some e) idp ru ⟨some e, some c⟩).1.1 =
        [.redirect errorRedirectUrl]) ∧
    (optTruthy u.email = true → validate u = .ok u) := by
  constructor
  · intro hmail
    have hv : validate u = .error .missingClaim := by
      simp [validate, hmail]
    have hcc : (completeCallback (some e) idp ru ⟨some e, some c⟩).1.1 =
        .error .missingClaim := by
      simp [completeCallback, exchangeAndValidate, patchedCallback,
        originalCallback, hcode, hiss, hui, hv]
    exact ⟨hv, hcc, by rw [hcc]; rfl⟩
  · intro hmail
    simp [validate, hmail]

/-- C5 witness: a userinfo response with no email (but another claim present)
is rejected and no cookie is set; one with an email passes. -/
theorem validate_requires_email_witness :
    (validate emptyProfile = .error .missingClaim ∧
      (completeCallback (some "st") noEmailIdp "r" ⟨some "st", some "c"⟩).1.1 =
        .error .missingClaim ∧
      callbackTrace
        (completeCallback (some "st") noEmailIdp "r" ⟨some "st", some "c"⟩).1.1 =
        [.redirect errorRedirectUrl]) ∧
    validate profileWithEmail = .ok profileWithEmail :=
  ⟨(validate_requires_email emptyProfile noEmailIdp "r" "st" "c"
      rfl rfl rfl).1 rfl,
   (validate_requires_email profileWithEmail acceptAllIdp "r" "st" "c"
      rfl rfl rfl).2 rfl⟩

/-- C9: when the URL carries no error indicator and the status check reports
OIDC enabled, the hook clears local and session storage (so every key the
application owns is removed) and then navigates to the login-initiation URL,
the clear preceding the navigation in the effect trace. -/
theorem auto_redirect_clears_then_navigates (ep : Option String)
    (url : String) (st : ClientState)
    (hep : optTruthy ep = false) :
    checkOidcAndRedirect ep (.ok true) url =
      [.clearLocalStorage, .clearSessionStorage, .navigate url] ∧
    (runHook st (checkOidcAndRedirect ep (.ok true) url)).localStore = [] ∧
    (runHook st (checkOidcAndRedirect ep (.ok true) url)).sessionStore = [] ∧
    (runHook st (checkOidcAndRedirect ep (.ok true) url)).navigation =
      some url ∧
    (∀ k v, (k, v) ∉
      (runHook st (checkOidcAndRedirect ep (.ok true) url)).localStore) ∧
    (∃ i j, i < j ∧
      (checkOidcAndRedirect ep (.ok true) url).get? i =
        some .clearLocalStorage ∧
      (checkOidcAndRedirect ep (.ok true) url).get? j =
        some (.navigate url)) := by
  have htr : checkOidcAndRedirect ep (.ok true) url =
      [.clearLocalStorage, .clearSessionStorage, .navigate url] := by
    simp [checkOidcAndRedirect, hep]
  refine ⟨htr, ?_, ?_, ?_, ?_, ?_⟩ <;> rw [htr]
  · rfl
  · rfl
  · rfl
  · intro k v; simp [runHook, applyHookEffect]
  · exact ⟨0, 2, by omega, rfl, rfl⟩

/-- C9 witness: with populated storage, no error parameter and an enabled
status, all keys are cleared and the browser navigates to the login URL. -/
theorem auto_redirect_clears_then_navigates_witness :
    (runHook ⟨[("app.user", "a")], [("app.tmp", "t")], none, true⟩
      (checkOidcAndRedirect none (.ok true) "/api/auth/oidc/login")).localStore
      = [] ∧
    (runHook ⟨[("app.user", "a")], [("app.tmp", "t")], none, true⟩
      (checkOidcAndRedirect none (.ok true) "/api/auth/oidc/login")).navigation
      = some "/api/auth/oidc/login" :=
  ⟨(auto_redirect_clears_then_navigates none "/api/auth/oidc/login"
      ⟨[("app.user", "a")], [("app.tmp", "t")], none, true⟩ rfl).2.1,
   (auto_redirect_clears_then_navigates none "/api/auth/oidc/login"
      ⟨[("app.user", "a")], [("app.tmp", "t")], none, true⟩ rfl).2.2.2.1⟩

/-- C10: if fetching the OIDC status throws, the hook performs no navigation
and no storage clearing and ends with the checking-complete state. -/
theorem status_error_only_completes (ep : Option String) (url : String)
    (st : ClientState) (hep : optTruthy ep = false) :
    checkOidcAndRedirect ep (.error ()) url = [.setIsChecking false] ∧
    runHook st (checkOidcAndRedirect ep (.error ()) url) =
      { st with isChecking := false } := by
  have htr : checkOidcAndRedirect ep (.error ()) url =
      [.setIsChecking false] := by
    simp [checkOidcAndRedirect, hep]
  exact ⟨htr, by rw [htr]; rfl⟩

/-- C10 witness: a failing status fetch leaves storage and navigation
untouched and sets the checking flag to false. -/
theorem status_error_only_completes_witness :
    runHook ⟨[("app.user", "a")], [], none, true⟩
      (checkOidcAndRedirect none (.error ()) "/login") =
      ⟨[("app.user", "a")], [], none, false⟩ :=
  (status_error_only_completes none "/login"
    ⟨[("app.user", "a")], [], none, true⟩ rfl).2

/-- C3: the patched callback performs at most two exchange attempts; a second
attempt happens only when the strict attempt failed with a message containing
`iss missing`; any other strict failure propagates unchanged with no retry;
the relaxed retry still enforces the state and code/redirect-URI checks
(a state mismatch or a rejected code fails even under the relaxed checks, and
a rejected code means the patched callback fails with no issuer-relaxation
rescue); and a response lacking only the issuer claim succeeds on the single
relaxed retry. -/
theorem exchange_retry_only_for_missing_iss (idp : IdpBehavior) (ru : String)
    (params : CallbackParams) (checks : CallbackChecks) :
    (patchedCallback idp ru params checks).2 ≤ 2 ∧
    ((patchedCallback idp ru params checks).2 = 2 →
      ∃ e, originalCallback idp ru params checks = .error e ∧
        includesStr (errMessage e) "iss missing" = true) ∧
    (∀ e, originalCallback idp ru params checks = .error e →
      includesStr (errMessage e) "iss missing" = false →
      patchedCallback idp ru params checks = (.error e, 1)) ∧
    ((params.state != checks.state) = true →
      ∃ e, originalCallback idp ru params (relaxChecks checks) = .error e) ∧
    (∀ c, params.code = some c → idp.acceptsCode c ru = false →
      (params.state != checks.state) = false →
      originalCallback idp ru params (relaxChecks checks) =
        .error (.exchangeFailed "invalid_grant") ∧
      patchedCallback idp ru params checks =
        (.error (.exchangeFailed "invalid_grant"), 1)) ∧
    ((params.state != checks.state) = false → ∀ c, params.code = some c →
      idp.acceptsCode c ru = true → idp.response.issPresent = false →
      checks.skipIssuerValidation = false →
      patchedCallback idp ru params checks = (.ok idp.response, 2)) := by
  have hrelax_state : (params.state != checks.state) = true →
      originalCallback idp ru params (relaxChecks checks) =
        .error (.exchangeFailed "state mismatch, expected another state") := by
    intro h
    simp [originalCallback, relaxChecks]
    simp [bne] at h
    simp [h]
  have hrelax_code : ∀ c, params.code = some c → idp.acceptsCode c ru = false →
      (params.state != checks.state) = false →
      originalCallback idp ru params (relaxChecks checks) =
        .error (.exchangeFailed "invalid_grant") := by
    intro c hc hacc hst
    simp [bne] at hst
    simp [originalCallback, relaxChecks, hst, hc, hacc]
  have hstrict_code : ∀ c, params.code = some c → idp.acceptsCode c ru = false →
      (params.state != checks.state) = false →
      originalCallback idp ru params checks =
        .error (.exchangeFailed "invalid_grant") := by
    intro c hc hacc hst
    simp [bne] at hst
    simp [originalCallback, hst, hc, hacc]
  have hgrant_msg :
      includesStr (errMessage (.exchangeFailed "invalid_grant"))
        "iss missing" = false := by decide
  have hiss_msg :
      includesStr (errMessage
        (.exchangeFailed "iss missing from the response"))
        "iss missing" = true := by decide
  have h123 : (patchedCallback idp ru params checks).2 ≤ 2 ∧
      ((patchedCallback idp ru params checks).2 = 2 →
        ∃ e, originalCallback idp ru params checks = .error e ∧
          includesStr (errMessage e) "iss missing" = true) ∧
      (∀ e, originalCallback idp ru params checks = .error e →
        includesStr (errMessage e) "iss missing" = false →
        patchedCallback idp ru params checks = (.error e, 1)) := by
    rcases ho : originalCallback idp ru params checks with e | t
    · by_cases hmsg : includesStr (errMessage e) "iss missing" = true
      · have hp : patchedCallback idp ru params checks =
            (originalCallback idp ru params (relaxChecks checks), 2) := by
          simp [patchedCallback, ho, hmsg]
        refine ⟨by simp [hp], fun _ => ⟨e, rfl, hmsg⟩, ?_⟩
        intro e2 he2 hm2
        cases he2
        simp [hm2] at hmsg
      · have hb : includesStr (errMessage e) "iss missing" = false := by
          simpa using hmsg
        have hp : patchedCallback idp ru params checks = (.error e, 1) := by
          simp [patchedCallback, ho, hb]
        refine ⟨by simp [hp], ?_, ?_⟩
        · intro h2
          simp [hp] at h2
        · intro e2 he2 _
          cases he2
          exact hp
    · have hp : patchedCallback idp ru params checks = (.ok t, 1) := by
        simp [patchedCallback, ho]
      refine ⟨by simp [hp], ?_, ?_⟩
      · intro h2
        simp [hp] at h2
      · intro e2 he2 _
        cases he2
  refine ⟨h123.1, h123.2.1, h123.2.2, fun h => ⟨_, hrelax_state h⟩, ?_, ?_⟩
  · intro c hc hacc hst
    refine ⟨hrelax_code c hc hacc hst, ?_⟩
    exact h123.2.2 _ (hstrict_code c hc hacc hst) hgrant_msg
  · intro hst c hc hacc hip hskip
    simp [bne] at hst
    have h1 : originalCallback idp ru params checks =
        .error (.exchangeFailed "iss missing from the response") := by
      simp [originalCallback, hst, hc, hacc, hip, hskip]
    have h2 : originalCallback idp ru params (relaxChecks checks) =
        .ok idp.response := by
      simp [originalCallback, relaxChecks, hst, hc, hacc, hip]
    simp [patchedCallback, h1, hiss_msg, h2]

/-- C3 witness: against an Authelia-like IdP that omits the issuer claim, a
callback with the right state and an accepted code succeeds on the second
(relaxed) attempt; with a rejected code it fails with a single attempt. -/
theorem exchange_retry_only_for_missing_iss_witness :
    patchedCallback authelia "https://app.example/callback"
      ⟨some "st", some "goodcode"⟩ ⟨some "st", false⟩ =
      (.ok ⟨false, "tok"⟩, 2) ∧
    patchedCallback authelia "https://app.example/callback"
      ⟨some "st", some "badcode"⟩ ⟨some "st", false⟩ =
      (.error (.exchangeFailed "invalid_grant"), 1) :=
  ⟨(exchange_retry_only_for_missing_iss authelia "https://app.example/callback"
      ⟨some "st", some "goodcode"⟩ ⟨some "st", false⟩).2.2.2.2.2
      (by decide) "goodcode" rfl (by decide) rfl rfl,
   ((exchange_retry_only_for_missing_iss authelia "https://app.example/callback"
      ⟨some "st", some "badcode"⟩ ⟨some "st", false⟩).2.2.2.2.1
      "badcode" rfl (by decide) (by decide)).2⟩

/-- C4: a callback whose state is absent, differs from the expected state, or
for which no state is pending (never issued, or already consumed) is rejected
with the state-mismatch error with zero token-exchange attempts and a
no-cookie error trace; and any second callback after a completed one finds the
pending state consumed and is rejected the same way. -/
theorem state_mismatch_rejected_before_exchange (pending : Option String)
    (idp : IdpBehavior) (ru : String) (params p2 : CallbackParams)
    (hbad : stateBad pending params.state = true) :
    exchangeAndValidate idp ru params pending = (.error .stateMismatch, 0) ∧
    callbackTrace (completeCallback pending idp ru params).1.1 =
      [.redirect errorRedirectUrl] ∧
    (completeCallback pending idp ru params).2 = none ∧
    (completeCallback (completeCallback pending idp ru params).2 idp ru p2).1 =
      (.error .stateMismatch, 0) := by
  have h1 : exchangeAndValidate idp ru params pending =
      (.error .stateMismatch, 0) := by
    rcases hp : pending with _ | e
    · rcases hs : params.state with _ | s <;> simp [exchangeAndValidate, hs]
    · rcases hs : params.state with _ | s
      · simp [exchangeAndValidate, hs]
      · rw [hp, hs] at hbad
        have hne : ¬(s = e) := by simpa [stateBad, bne] using hbad
        simp [exchangeAndValidate, hs, hne]
  have h2 : (completeCallback pending idp ru params).1.1 =
      .error .stateMismatch := by
    simp [completeCallback, h1]
  have h3 : (completeCallback pending idp ru params).2 = none := by
    simp [completeCallback, h1]
  have h4 : ∀ q : CallbackParams,
      exchangeAndValidate idp ru q none = (.error .stateMismatch, 0) := by
    intro q
    rcases hs : q.state with _ | s <;> simp [exchangeAndValidate, hs]
  refine ⟨h1, by rw [h2]; rfl, h3, ?_⟩
  rw [h3]
  simp [completeCallback, h4 p2]

/-- C4 witness: expected state differs from the presented one; and a replayed
second callback is rejected with no exchange attempted. -/
theorem state_mismatch_rejected_before_exchange_witness :
    exchangeAndValidate acceptAllIdp "r" ⟨some "b", some "x"⟩ (some "a") =
      (.error .stateMismatch, 0) ∧
    (completeCallback
      (completeCallback (some "a") acceptAllIdp "r" ⟨some "b", some "x"⟩).2
      acceptAllIdp "r" ⟨some "a", some "x"⟩).1 =
      (.error .stateMismatch, 0) :=
  ⟨(state_mismatch_rejected_before_exchange (some "a") acceptAllIdp "r"
      ⟨some "b", some "x"⟩ ⟨some "a", some "x"⟩ (by decide)).1,
   (state_mismatch_rejected_before_exchange (some "a") acceptAllIdp "r"
      ⟨some "b", some "x"⟩ ⟨some "a", some "x"⟩ (by decide)).2.2.2⟩

/-- C6: with an unset cache and a complete configuration, a failed discovery
makes `getClient` fail with the discovery error, leaves the strategy state
unchanged (the cache stays unset) with exactly one discovery attempt (no
in-call retry), and any next independent call performs discovery again. -/
theorem discovery_failure_no_retry (env : OidcEnv) (msg : String)
    (s : StrategyState) (hcache : s.client = none)
    (hcfg : (optTruthy env.issuer && optTruthy env.clientId &&
      optTruthy env.clientSecret && optTruthy env.redirectUri) = true) :
    getClient env (.failure msg) s = (.error (.discoveryFailed msg), s, 1) ∧
    (∀ net2, (getClient env net2 s).2.2 = 1) := by
  obtain ⟨⟨⟨h1, h2⟩, h3⟩, h4⟩ :
      ((optTruthy env.issuer = true ∧ optTruthy env.clientId = true) ∧
        optTruthy env.clientSecret = true) ∧
        optTruthy env.redirectUri = true := by
    simpa [Bool.and_eq_true] using hcfg
  constructor
  · simp [getClient, hcache, h1, h2, h3, h4]
  · intro net2
    rcases net2 with metadata | m <;> simp [getClient, hcache, h1, h2, h3, h4]

/-- C6 witness: with the sample configuration and an empty cache, an
unreachable IdP yields the discovery error with one attempt and an unchanged
state, and the next call attempts discovery again. -/
theorem discovery_failure_no_retry_witness :
    getClient sampleEnv (.failure "connection refused") ⟨none⟩ =
      (.error (.discoveryFailed "connection refused"), ⟨none⟩, 1) ∧
    (getClient sampleEnv (.ok "meta") ⟨none⟩).2.2 = 1 :=
  ⟨(discovery_failure_no_retry sampleEnv "connection refused" ⟨none⟩
      rfl (by decide)).1,
   (discovery_failure_no_retry sampleEnv "connection refused" ⟨none⟩
      rfl (by decide)).2 (.ok "meta")⟩

/-- C7: with an unset cache, a configuration missing any required field makes
`getClient` fail with the configuration error, with zero discovery attempts
(the failure happens before any network discovery) and unchanged state. -/
theorem missing_config_rejected_before_discovery (env : OidcEnv)
    (net : DiscoveryResult) (s : StrategyState)
    (hcache : s.client = none)
    (hmiss : (optTruthy env.issuer && optTruthy env.clientId &&
      optTruthy env.clientSecret && optTruthy env.redirectUri) = false) :
    getClient env net s = (.error .notConfigured, s, 0) := by
  cases h1 : optTruthy env.issuer <;> cases h2 : optTruthy env.clientId <;>
    cases h3 : optTruthy env.clientSecret <;>
    cases h4 : optTruthy env.redirectUri <;>
    simp_all [getClient]

/-- C7 witness: a configuration with no client secret is rejected with zero
discovery attempts even though the discovery oracle would have succeeded. -/
theorem missing_config_rejected_before_discovery_witness :
    getClient ⟨some "https://idp.example", some "abc", none, some "u"⟩
      (.ok "meta") ⟨none⟩ =
      (.error .notConfigured, ⟨none⟩, 0) :=
  missing_config_rejected_before_discovery
    ⟨some "https://idp.example", some "abc", none, some "u"⟩
    (.ok "meta") ⟨none⟩ rfl (by decide)

/-- C8: once a call of `getClient` succeeds, every subsequent call returns the
identical cached client with the state unchanged and zero discovery attempts,
whatever the network would do. -/
theorem getClient_idempotent_cache (env : OidcEnv) (net net2 : DiscoveryResult)
    (s s2 : StrategyState) (c : DiscoveredClient) (n : Nat)
    (h : getClient env net s = (.ok c, s2, n)) :
    getClient env net2 s2 = (.ok c, s2, 0) := by
  have hs2 : s2.client = some c := by
    rcases hc : s.client with _ | c0
    · rcases hcfg : (!(optTruthy env.issuer) || !(optTruthy env.clientId)
          || !(optTruthy env.clientSecret) || !(optTruthy env.redirectUri))
          with _ | _
      · rcases net with metadata | m
        · simp [getClient, hc, hcfg] at h
          obtain ⟨hcc, hss, -⟩ := h
          rw [← hss]
          simp [hcc]
        · simp [getClient, hc, hcfg] at h
      · simp [getClient, hc, hcfg] at h
    · simp [getClient, hc] at h
      simp_all
  simp [getClient, hs2]

/-- C8 witness: after a successful discovery call, a second call returns the
same client with zero attempts even though the network is now down. -/
theorem getClient_idempotent_cache_witness :
    getClient sampleEnv (.failure "down") ⟨some sampleClient⟩ =
      (.ok sampleClient, ⟨some sampleClient⟩, 0) :=
  getClient_idempotent_cache sampleEnv (.ok "meta") (.failure "down")
    ⟨none⟩ ⟨some sampleClient⟩ sampleClient 1 rfl

end Docmost
